import Mathlib

/-!
# Shallow embedding of the schare-project-onboarder provisioning workflow

This file embeds, in Lean 4, the parts of the TypeScript onboarding wizard
that implement the multi-step provisioning saga:

* `src/src/services/projects.ts` — `listProjects`, `checkProjectIdAvailability`,
  `enableApisForProject`, `deleteProject`, `ESSENTIAL_APIS`;
* `src/unnamed/part_004` (the billing service) — `linkBillingAccountDirect`,
  `linkBillingAccount`, `testBillingAccountPermissions`;
* `src/src/services/iam.ts` — the pure policy transformation performed by
  `grantVertexAIUserRoleToServiceAccount` and `grantUserRoleOnServiceAccount`;
* `src/src/pages/Billing/SelectBillingAccountPage.tsx` (the final
  `ProjectsListPage` revision, lines 1035–1730) — `cleanupFailedProject`,
  `handleCreateProject`, the `verifyBillingPermissions` effect and the
  post-creation polling effect;
* `src/src/pages/VertexAI/SelectServiceAccountPage.tsx` —
  `handleCreateServiceAccount`.

Remote HTTP calls are modelled by oracles: each `fetch` outcome is a
`FetchResult` (the response with `response.ok` true, the response with
`response.ok` false carrying status / statusText / body, or a thrown network
error), and each service function becomes a pure function of its oracle(s).
Thrown JavaScript `Error`s are modelled as `Except String` where the payload
is the error's `message`. React state updates are modelled by returning the
final values of the state variables the handler writes.
-/

/-- Outcome of one `fetch` call: `success body` is a response with
`response.ok = true`; `httpError status statusText body` is a completed
response with `response.ok = false`; `networkError msg` models `fetch`
itself throwing (the caught error's `message` is `msg`). -/
inductive FetchResult where
  | success (body : String)
  | httpError (status : Nat) (statusText : String) (body : String)
  | networkError (msg : String)
  deriving DecidableEq, Repr

/-- JavaScript `s || d` for strings: the empty string is falsy. -/
def orDefault (s d : String) : String :=
  if s = "" then d else s

/-- Decide whether `needle` occurs at the head of `hay` (character lists). -/
def leadsWith : List Char → List Char → Bool
  | [], _ => true
  | _ :: _, [] => false
  | a :: as, b :: bs => a == b && leadsWith as bs

/-- Decide whether `needle` occurs contiguously anywhere in `hay`
(character lists); mirrors JavaScript `String.prototype.includes`. -/
def occursIn (needle : List Char) : List Char → Bool
  | [] => leadsWith needle []
  | l@(_ :: rest) => leadsWith needle l || occursIn needle rest

/-- JavaScript `hay.includes(needle)` on strings. -/
def strContains (hay needle : String) : Bool :=
  occursIn needle.toList hay.toList

/-- `GCPProject` interface from `src/src/services/projects.ts`. -/
structure GCPProject where
  projectId : String
  name : String
  projectNumber : String
  createTime : String
  lifecycleState : String
  deriving DecidableEq, Repr

/-- `ProjectBillingInfo` interface from the billing page. -/
structure ProjectBillingInfo where
  name : String
  projectId : String
  billingAccountName : String
  billingEnabled : Bool
  deriving DecidableEq, Repr

/-- `ESSENTIAL_APIS` from `src/src/services/projects.ts`. -/
def ESSENTIAL_APIS : List String :=
  [ "serviceusage.googleapis.com",
    "cloudresourcemanager.googleapis.com",
    "cloudbilling.googleapis.com",
    "aiplatform.googleapis.com" ]

/-- `listProjects` from `src/src/services/projects.ts`: the oracle is the
parsed `data.projects || []` on success, or the thrown error on failure;
the function itself just propagates either. -/
def listProjects (r : Except String (List GCPProject)) :
    Except String (List GCPProject) := r

/-- `checkProjectIdAvailability` from `src/src/services/projects.ts`:
`!projects.some(project => project.projectId === projectId)` on a successful
`listProjects`, rethrowing the error otherwise. -/
def checkProjectIdAvailability (r : Except String (List GCPProject))
    (projectId : String) : Except String Bool :=
  match listProjects r with
  | .ok projects => .ok (!(projects.any (fun p => p.projectId == projectId)))
  | .error m => .error m

/-- The UI filter applied before rendering the project list in
`SelectBillingAccountPage.tsx`:
`projects.filter(project => project.lifecycleState !== "DELETE_REQUESTED")`. -/
def displayedProjects (projects : List GCPProject) : List GCPProject :=
  projects.filter (fun p => p.lifecycleState != "DELETE_REQUESTED")

/-- `deleteProject` from `src/src/services/projects.ts`, as a function of its
single `fetch` outcome: a non-ok response throws
`Error deleting project: <status> <statusText> - <body>`; a network error is
rethrown as-is. -/
def deleteProject (r : FetchResult) : Except String Unit :=
  match r with
  | .success _ => .ok ()
  | .httpError status statusText body =>
      .error ("Error deleting project: " ++ toString status ++ " "
        ++ statusText ++ " - " ++ body)
  | .networkError m => .error m

/-- `enableApisForProject` from `src/src/services/projects.ts`: a `for … of`
loop over `apiIdentifiers`, awaiting each `:enable` call in turn and throwing
`Error enabling API <api>: <status> <statusText> - <body>` at the first
non-ok response (a network error is rethrown as-is). The oracle `f` gives
each API's `fetch` outcome. Returns the result together with the ordered
list of APIs whose enable call was actually issued. -/
def enableApisForProject (f : String → FetchResult) :
    List String → Except String Unit × List String
  | [] => (.ok (), [])
  | api :: rest =>
    match f api with
    | .success _ =>
        let (r, invoked) := enableApisForProject f rest
        (r, api :: invoked)
    | .httpError status statusText body =>
        (.error ("Error enabling API " ++ api ++ ": " ++ toString status
          ++ " " ++ statusText ++ " - " ++ body), [api])
    | .networkError m => (.error m, [api])

/-- Whether one `:enable` fetch outcome is a success; the loop in
`enableApisForProject` continues exactly on these. -/
def enableOk (f : String → FetchResult) (api : String) : Bool :=
  match f api with
  | .success _ => true
  | _ => false

/-- `testBillingAccountPermissions` from the billing service: the oracle is
the parsed `data.permissions || []` on success, or the thrown error. -/
def testBillingAccountPermissions (r : Except String (List String)) :
    Except String (List String) := r

/-- The message thrown by the `try` block of `linkBillingAccountDirect`
(`src/unnamed/part_004`) when the billing `PUT` does not succeed: a 403
status produces the permission-guidance message, any other non-ok status
produces `Error linking billing account: <status> <statusText>`, and a
network error is the fetch's own thrown message. `none` means the `PUT`
succeeded and nothing is thrown. -/
def linkTryError (billingAccountName : String) (linkR : FetchResult) :
    Option String :=
  match linkR with
  | .success _ => none
  | .httpError status statusText _ =>
      if status == 403 then
        some ("Error linking billing account: Permission denied (403). "
          ++ "You need Billing Account Administrator or Billing Account User role on "
          ++ billingAccountName ++ ".")
      else
        some ("Error linking billing account: " ++ toString status ++ " "
          ++ statusText)
  | .networkError m => some m

/-- `linkBillingAccountDirect` from `src/unnamed/part_004`. On a `PUT`
failure the `catch (error)` block attempts `deleteProject` inside an inner
`try`; note that the deliberate `throw` of the "has been deleted" composite
sits *inside* that inner `try`, so it is itself caught by
`catch (deleteError)`, which always rethrows
`<orig>. Additionally, failed to delete the project after billing linkage
failure: <deleteError.message || 'unknown error'>`. `delR` is the oracle for
the delete call's fetch. -/
def linkBillingAccountDirect (projectId billingAccountName : String)
    (linkR delR : FetchResult) : Except String Unit :=
  match linkTryError billingAccountName linkR with
  | none => .ok ()
  | some em =>
    let origMsg := orDefault em "Unknown billing linkage error"
    let deleteErrorMsg :=
      match deleteProject delR with
      | .ok _ =>
          origMsg ++ ". The project " ++ projectId
            ++ " has been deleted due to billing linkage failure."
      | .error d => d
    .error (origMsg
      ++ ". Additionally, failed to delete the project after billing linkage failure: "
      ++ orDefault deleteErrorMsg "unknown error")

/-- `linkBillingAccount` from `src/unnamed/part_004`: delegates to
`linkBillingAccountDirect` and rethrows any error unchanged. -/
def linkBillingAccount (projectId billingAccountName : String)
    (linkR delR : FetchResult) : Except String Unit :=
  linkBillingAccountDirect projectId billingAccountName linkR delR

/-- `Binding` interface from `src/src/services/iam.ts` (the optional
`condition` field is never touched by the grant functions and is omitted). -/
structure Binding where
  role : String
  members : Option (List String)
  deriving DecidableEq, Repr

/-- `Policy` interface from `src/src/services/iam.ts` (`version` and `etag`
are carried through unchanged by the grant functions and are omitted). -/
structure Policy where
  bindings : Option (List Binding)
  deriving DecidableEq, Repr

/-- Apply `f` to the first binding whose role matches, leaving the rest
unchanged — the effect of mutating the binding returned by
`policy.bindings?.find(b => b.role === role)`. -/
def updateFirstMatching (role : String) (f : Binding → Binding) :
    List Binding → List Binding
  | [] => []
  | b :: bs =>
    if b.role == role then f b :: bs
    else b :: updateFirstMatching role f bs

/-- The in-place update applied to the found binding by both grant functions
in `src/src/services/iam.ts`:
`if (!binding.members?.includes(memberKey)) binding.members = [...(binding.members || []), memberKey]`. -/
def addMemberToBinding (memberKey : String) (b : Binding) : Binding :=
  if (b.members.getD []).contains memberKey then b
  else { b with members := some ((b.members.getD []) ++ [memberKey]) }

/-- The pure policy transformation performed between `getIamPolicy` and
`setIamPolicy` by `grantVertexAIUserRoleToServiceAccount` and
`grantUserRoleOnServiceAccount` (`src/src/services/iam.ts`): find the first
binding for `role` and add `memberKey` to it if absent, or append a fresh
binding `{role, members: [memberKey]}` when no binding for `role` exists
(`policy.bindings = [...(policy.bindings || []), newBinding]`). -/
def grantPolicyUpdate (role memberKey : String) (p : Policy) : Policy :=
  match p.bindings with
  | none => { p with bindings := some [⟨role, some [memberKey]⟩] }
  | some bs =>
    if bs.any (fun b => b.role == role) then
      let updated := updateFirstMatching role (addMemberToBinding memberKey) bs
      { p with bindings := some updated }
    else
      { p with bindings := some (bs ++ [⟨role, some [memberKey]⟩]) }

/-- The policy sent to `setProjectIamPolicy` by
`grantVertexAIUserRoleToServiceAccount`, as a function of the fetched
policy: role `roles/aiplatform.user`, member `serviceAccount:<email>`. -/
def grantVertexAIUserRolePolicy (serviceAccountEmail : String) (p : Policy) :
    Policy :=
  grantPolicyUpdate "roles/aiplatform.user"
    ("serviceAccount:" ++ serviceAccountEmail) p

/-- The policy sent to `setServiceAccountIamPolicy` by
`grantUserRoleOnServiceAccount`, as a function of the fetched policy:
caller-supplied role, member `user:<email>`. -/
def grantUserRolePolicy (role userEmail : String) (p : Policy) : Policy :=
  grantPolicyUpdate role ("user:" ++ userEmail) p

/-- Lowercase ASCII letter test, as used by the project-ID validation
regexes in `handleCreateProject`. -/
def isLowerAlpha (c : Char) : Bool := 'a' ≤ c && c ≤ 'z'

/-- ASCII digit test. -/
def isDigitCh (c : Char) : Bool := '0' ≤ c && c ≤ '9'

/-- Character class `[a-z0-9-]` of the project-ID regex. -/
def isIdChar (c : Char) : Bool := isLowerAlpha c || isDigitCh c || c == '-'

/-- The test `/^[a-z][a-z0-9-]*[a-z0-9]$/.test(id)`: at least two
characters, the first a lowercase letter, the last a lowercase letter or
digit, everything in between in `[a-z0-9-]`. -/
def projectIdRegexTest (id : String) : Bool :=
  match id.toList with
  | [] => false
  | [_] => false
  | c :: rest =>
    isLowerAlpha c &&
    (match rest.getLast? with
     | some lastC => isIdChar lastC && !(lastC == '-') && rest.all isIdChar
     | none => false)

/-- `restrictedStrings` from `handleCreateProject`. -/
def restrictedStrings : List String := ["google", "ssl", "undefined", "null"]

/-- The validation block at the top of `handleCreateProject`
(`SelectBillingAccountPage.tsx`, final revision): length 6–30, the project-ID
regex (with the three specific messages), then the restricted-substring
loop. Returns the error message set by a failing check, or `none` when
validation passes and the workflow proceeds. -/
def validateProjectId (newProjectId : String) : Option String :=
  if newProjectId.length < 6 || newProjectId.length > 30 then
    some "Project ID must be between 6 and 30 characters"
  else if !projectIdRegexTest newProjectId then
    if String.endsWith newProjectId "-" then
      some "Project ID cannot end with a hyphen"
    else if !(match newProjectId.toList with
              | c :: _ => isLowerAlpha c
              | [] => false) then
      some "Project ID must start with a letter"
    else
      some "Project ID can only contain lowercase letters, numbers, and hyphens"
  else
    match restrictedStrings.find? (fun r => strContains newProjectId r) with
    | some r =>
        some ("Project ID cannot contain the restricted string \"" ++ r ++ "\"")
    | none => none

/-- The error-state updater used by `cleanupFailedProject`:
`prev => `${prev ? prev + ' ' : ''}<msg>``; `prev` is `null` or a string,
and both `null` and the empty string are falsy. -/
def appendToError (prev : Option String) (msg : String) : String :=
  match prev with
  | none => msg
  | some p => if p = "" then msg else p ++ " " ++ msg

/-- `cleanupFailedProject` from `SelectBillingAccountPage.tsx` (final
revision): returns the final `createProjectError` state together with
whether `deleteProject` was invoked, wrapped in `Except` to show that no
exception escapes. A `null` `projectId` performs no call at all; a throwing
`deleteProject` is caught and folded into the error message ending in
`Please delete it manually.`. `delR` is the delete call's fetch oracle. -/
def cleanupFailedProject (delR : FetchResult) (projectId : Option String)
    (failureStep : String) (prevErr : Option String) :
    Except String (Option String × Bool) :=
  match projectId with
  | none => .ok (prevErr, false)
  | some pid =>
    match deleteProject delR with
    | .ok _ =>
        .ok (some (appendToError prevErr
          ("Project " ++ pid ++ " was deleted due to " ++ failureStep ++ ".")),
          true)
    | .error dmsg =>
        .ok (some (appendToError prevErr
          ("Failed to delete project " ++ pid ++ " after " ++ failureStep
            ++ ": " ++ orDefault dmsg "unknown error"
            ++ ". Please delete it manually.")),
          true)

/-- Whether the `catch` block of `linkBillingAccountDirect` runs, i.e.
whether the compensating `deleteProject` call is attempted: exactly when the
billing `PUT` did not succeed. -/
def linkDeleteAttempted (billingAccountName : String) (linkR : FetchResult) :
    Bool :=
  match linkTryError billingAccountName linkR with
  | none => false
  | some _ => true

/-- The remote-outcome environment of one `handleCreateProject` execution
(final `ProjectsListPage` revision of `SelectBillingAccountPage.tsx`):
component state read by the handler (`newProjectId`, `accessToken`,
`decodedBillingAccountName`, `hasLinkPermission`) and one oracle per
awaited remote call. -/
structure WorkflowEnv where
  newProjectId : String
  accessToken : String
  billingAccountName : String
  /-- outcome of `listProjects` inside `checkProjectIdAvailability` -/
  listR : Except String (List GCPProject)
  /-- outcome of `createProject` (the returned project object is only logged) -/
  createR : Except String Unit
  /-- per-API fetch outcome inside `enableApisForProject` -/
  enableR : String → FetchResult
  /-- the `hasLinkPermission` state set by `verifyBillingPermissions` on page load -/
  hasLinkPermission : Option Bool
  /-- fetch outcome of the `deleteProject` call inside `cleanupFailedProject` -/
  cleanupDelR : FetchResult
  /-- fetch outcome of the billing `PUT` inside `linkBillingAccountDirect` -/
  linkR : FetchResult
  /-- fetch outcome of the `deleteProject` call inside `linkBillingAccountDirect` -/
  linkDelR : FetchResult

/-- Final values of the component state written by `handleCreateProject`,
plus the call trace needed to state the saga properties. `creationProgress`
and `currentCreationStep` start at `0` / `""`; `dialogOpen` is
`openCreateProjectDialog`, `true` while the dialog showing the handler is up. -/
structure CreateProjectResult where
  createProjectError : Option String
  creationProgress : Nat
  currentCreationStep : String
  dialogOpen : Bool
  pollingStarted : Bool
  /-- `createProject` was invoked -/
  createCalled : Bool
  /-- `deleteProject` was invoked (via `cleanupFailedProject` or inside `linkBillingAccountDirect`) -/
  deleteCalled : Bool
  /-- `linkBillingAccount` was invoked -/
  linkCalled : Bool
  /-- APIs whose `:enable` call was issued, in order -/
  apisInvoked : List String
  deriving DecidableEq, Repr

/-- `handleCreateProject` from the final `ProjectsListPage` revision of
`SelectBillingAccountPage.tsx` (lines 1386–1567): validation, availability
check, `createProject`, the 10-second propagation wait, `enableApisForProject`
over `ESSENTIAL_APIS`, the `hasLinkPermission !== true` guard,
`linkBillingAccount`, and on success closing the dialog and starting the
poll. Each failing step sets `createProjectError` and returns; API-enablement
and permission failures additionally run `cleanupFailedProject`; the outer
`catch` picks up a throwing availability check (every later await sits
inside its own `try`). -/
def handleCreateProject (env : WorkflowEnv) : CreateProjectResult :=
  match validateProjectId env.newProjectId with
  | some msg =>
      { createProjectError := some msg, creationProgress := 0,
        currentCreationStep := "", dialogOpen := true, pollingStarted := false,
        createCalled := false, deleteCalled := false, linkCalled := false,
        apisInvoked := [] }
  | none =>
    match checkProjectIdAvailability env.listR env.newProjectId with
    | .error m =>
        { createProjectError := some ("An unexpected error occurred." ++ (if m = "" then "" else " " ++ m)),
          creationProgress := 0,
          currentCreationStep := "Checking if project ID is available...",
          dialogOpen := true, pollingStarted := false, createCalled := false,
          deleteCalled := false, linkCalled := false, apisInvoked := [] }
    | .ok isAvailable =>
      if !isAvailable then
        { createProjectError := some "Project ID is already in use or was previously used",
          creationProgress := 0, currentCreationStep := "", dialogOpen := true,
          pollingStarted := false, createCalled := false, deleteCalled := false,
          linkCalled := false, apisInvoked := [] }
      else
        match env.createR with
        | .error m =>
            { createProjectError := some ("Failed to create project." ++ (if m = "" then "" else " Error: " ++ m)),
              creationProgress := 15,
              currentCreationStep := "Creating project " ++ env.newProjectId ++ "...",
              dialogOpen := true, pollingStarted := false, createCalled := true,
              deleteCalled := false, linkCalled := false, apisInvoked := [] }
        | .ok _ =>
          let createdProjectId : Option String := some env.newProjectId
          match enableApisForProject env.enableR ESSENTIAL_APIS with
          | (.error m, invoked) =>
            let err0 := "Project was created but APIs could not be enabled." ++ (if m = "" then "" else " Error: " ++ m)
            match cleanupFailedProject env.cleanupDelR createdProjectId
                "API enablement failure" (some err0) with
            | .ok (errAfter, delCalled) =>
                { createProjectError := errAfter, creationProgress := 45,
                  currentCreationStep := "Enabling essential APIs for project " ++ env.newProjectId ++ "...",
                  dialogOpen := true, pollingStarted := false,
                  createCalled := true, deleteCalled := delCalled,
                  linkCalled := false, apisInvoked := invoked }
            | .error m2 =>
                { createProjectError := some ("An unexpected error occurred." ++ (if m2 = "" then "" else " " ++ m2)),
                  creationProgress := 45,
                  currentCreationStep := "Enabling essential APIs for project " ++ env.newProjectId ++ "...",
                  dialogOpen := true, pollingStarted := false,
                  createCalled := true, deleteCalled := true,
                  linkCalled := false, apisInvoked := invoked }
          | (.ok _, invoked) =>
            if env.hasLinkPermission != some true then
              let err0 := "Billing permission not granted. Please ensure your account has the necessary permissions."
              match cleanupFailedProject env.cleanupDelR createdProjectId
                  "billing permission check failure" (some err0) with
              | .ok (errAfter, delCalled) =>
                  { createProjectError := errAfter, creationProgress := 60,
                    currentCreationStep := "Enabling essential APIs for project " ++ env.newProjectId ++ "...",
                    dialogOpen := true, pollingStarted := false,
                    createCalled := true, deleteCalled := delCalled,
                    linkCalled := false, apisInvoked := invoked }
              | .error m2 =>
                  { createProjectError := some ("An unexpected error occurred." ++ (if m2 = "" then "" else " " ++ m2)),
                    creationProgress := 60,
                    currentCreationStep := "Enabling essential APIs for project " ++ env.newProjectId ++ "...",
                    dialogOpen := true, pollingStarted := false,
                    createCalled := true, deleteCalled := true,
                    linkCalled := false, apisInvoked := invoked }
            else
              match linkBillingAccount env.newProjectId env.billingAccountName
                  env.linkR env.linkDelR with
              | .ok _ =>
                  { createProjectError := none, creationProgress := 100,
                    currentCreationStep := "Project setup complete!",
                    dialogOpen := false,
                    pollingStarted := env.accessToken != "" && env.billingAccountName != "",
                    createCalled := true, deleteCalled := false,
                    linkCalled := true, apisInvoked := invoked }
              | .error m =>
                  { createProjectError := some (if m = "" then "Failed to link billing account." else m),
                    creationProgress := 75,
                    currentCreationStep := "Linking project to billing account...",
                    dialogOpen := true, pollingStarted := false,
                    createCalled := true,
                    deleteCalled := linkDeleteAttempted env.billingAccountName env.linkR,
                    linkCalled := true, apisInvoked := invoked }

/-- Step-success predicate: the availability check ran and reported the ID
available. -/
def availOk (env : WorkflowEnv) : Bool :=
  match checkProjectIdAvailability env.listR env.newProjectId with
  | .ok b => b
  | .error _ => false

/-- Step-success predicate: `createProject` succeeded. -/
def createOk (env : WorkflowEnv) : Bool :=
  match env.createR with
  | .ok _ => true
  | .error _ => false

/-- Step-success predicate: every `ESSENTIAL_APIS` enable call succeeded. -/
def apisOk (env : WorkflowEnv) : Bool :=
  match (enableApisForProject env.enableR ESSENTIAL_APIS).1 with
  | .ok _ => true
  | .error _ => false

/-- Step-success predicate: the billing linkage `PUT` succeeded. -/
def linkOk (env : WorkflowEnv) : Bool :=
  match linkBillingAccount env.newProjectId env.billingAccountName env.linkR
      env.linkDelR with
  | .ok _ => true
  | .error _ => false

/-- The `hasLinkPermission` value computed by the `verifyBillingPermissions`
effect on page load: `permissions.includes('billing.resourceAssociations.create')`
from a successful `testBillingAccountPermissions`, and `false` when the check
throws. -/
def hasLinkPermissionFrom (r : Except String (List String)) : Bool :=
  match testBillingAccountPermissions r with
  | .ok permissions => permissions.contains "billing.resourceAssociations.create"
  | .error _ => false

/-- Outcome of one iteration of the post-creation polling interval: both
list calls succeeded with the given parsed payloads, or one of them threw. -/
inductive PollOutcome where
  | success (billingInfos : List ProjectBillingInfo) (allProjects : List GCPProject)
  | failure (msg : String)

/-- What one polling tick decides: the project was found (stop, show list),
the project was not found (keep polling), or a call threw (stop on error). -/
inductive PollStep where
  | found
  | keepPolling
  | errorStop
  deriving DecidableEq, Repr

/-- The interval passed to `setInterval` in the polling `useEffect` of
`SelectBillingAccountPage.tsx` (final revision): 3000 milliseconds. -/
def pollIntervalMs : Nat := 3000

/-- The project-ID extraction performed on each polling tick:
billing-enabled entries, second `/`-separated component of `info.name`
(empty when there is no second component), empty strings filtered out. -/
def extractProjectIds (infos : List ProjectBillingInfo) : List String :=
  ((infos.filter (fun i => i.billingEnabled)).map (fun info =>
      match (info.name.split (fun c => c == '/')).get? 1 with
      | some p => p
      | none => "")).filter (fun id => id != "")

/-- One tick of the polling interval callback (`SelectBillingAccountPage.tsx`,
final revision, lines 1205–1266): on a throwing call the `catch` stops
polling; otherwise the tick computes `filteredProjects` and stops exactly
when the polled project appears in it. There is no attempt counter and no
timeout anywhere in the effect. -/
def pollTick (pollingProjectId : String) (o : PollOutcome) : PollStep :=
  match o with
  | .failure _ => .errorStop
  | .success infos allProjects =>
    let projectIds := extractProjectIds infos
    let filteredProjects := allProjects.filter (fun p => projectIds.contains p.projectId)
    if filteredProjects.any (fun p => p.projectId == pollingProjectId) then
      .found
    else
      .keepPolling

/-- Whether the interval is still running after `n` ticks, given the
per-tick outcomes `o`: it keeps running exactly as long as every tick so far
decided `keepPolling`. -/
def pollingActiveAfter (pollingProjectId : String) (o : Nat → PollOutcome) :
    Nat → Bool
  | 0 => true
  | n + 1 =>
      pollingActiveAfter pollingProjectId o n
        && (pollTick pollingProjectId (o n) == .keepPolling)

/-- The validation block of `handleCreateServiceAccount`
(`SelectServiceAccountPage.tsx`): length 6–30 and the same
`^[a-z][a-z0-9-]*[a-z0-9]$` regex, with the service-account wording (no
restricted-substring loop here). -/
def validateServiceAccountId (id : String) : Option String :=
  if id.length < 6 || id.length > 30 then
    some "Service Account ID must be between 6 and 30 characters"
  else if !projectIdRegexTest id then
    if String.endsWith id "-" then
      some "Service Account ID cannot end with a hyphen"
    else if !(match id.toList with
              | c :: _ => isLowerAlpha c
              | [] => false) then
      some "Service Account ID must start with a letter"
    else
      some "Service Account ID can only contain lowercase letters, numbers, and hyphens"
  else
    none

/-- Environment of one `handleCreateServiceAccount` execution: the form
state and auth state read by the handler, and one oracle per awaited call
(`createServiceAccount`, whose success value is the account's email, and
`grantVertexAIUserRoleToServiceAccount`). -/
structure SAEnv where
  newServiceAccountId : String
  newServiceAccountDisplayName : String
  accessToken : String
  projectId : String
  createR : Except String String
  grantR : Except String Unit

/-- Final values of the state written by `handleCreateServiceAccount`, plus
the call trace: `cleanupAttempted` records whether any call deleting the
created service account was issued (the handler contains none). -/
structure SAResult where
  createServiceAccountError : Option String
  creationProgress : Nat
  currentCreationStep : String
  accountAdded : Bool
  grantCalled : Bool
  cleanupAttempted : Bool
  deriving DecidableEq, Repr

/-- `handleCreateServiceAccount` from `SelectServiceAccountPage.tsx`
(lines 118–197): ID validation, required display name, the
`!accessToken || !projectId` guard, `createServiceAccount`, then
`grantVertexAIUserRoleToServiceAccount`; the single `catch` turns any
thrown error into `Failed to create service account: <msg || 'Unknown
error'>` and performs no compensation. State is reported as it stands when
the handler returns (the success path's 1-second `setTimeout` reset runs
later). -/
def handleCreateServiceAccount (env : SAEnv) : SAResult :=
  match validateServiceAccountId env.newServiceAccountId with
  | some msg =>
      { createServiceAccountError := some msg, creationProgress := 0,
        currentCreationStep := "", accountAdded := false, grantCalled := false,
        cleanupAttempted := false }
  | none =>
    if env.newServiceAccountDisplayName = "" then
      { createServiceAccountError := some "Display name is required",
        creationProgress := 0, currentCreationStep := "",
        accountAdded := false, grantCalled := false, cleanupAttempted := false }
    else if env.accessToken = "" || env.projectId = "" then
      { createServiceAccountError := some "Missing access token or project ID",
        creationProgress := 0, currentCreationStep := "",
        accountAdded := false, grantCalled := false, cleanupAttempted := false }
    else
      match env.createR with
      | .error m =>
          { createServiceAccountError := some ("Failed to create service account: " ++ orDefault m "Unknown error"),
            creationProgress := 0,
            currentCreationStep := "Creating service account...",
            accountAdded := false, grantCalled := false,
            cleanupAttempted := false }
      | .ok _email =>
          match env.grantR with
          | .error m =>
              { createServiceAccountError := some ("Failed to create service account: " ++ orDefault m "Unknown error"),
                creationProgress := 50,
                currentCreationStep := "Granting Vertex AI User role...",
                accountAdded := false, grantCalled := true,
                cleanupAttempted := false }
          | .ok _ =>
              { createServiceAccountError := none, creationProgress := 100,
                currentCreationStep := "Service account created successfully!",
                accountAdded := true, grantCalled := true,
                cleanupAttempted := false }

/-- Workflow environment in which every remote call succeeds; the
instantiation base for the concrete witnesses below. -/
def baseEnv : WorkflowEnv :=
  { newProjectId := "abc-def", accessToken := "tok",
    billingAccountName := "billingAccounts/ABC123", listR := .ok [],
    createR := .ok (), enableR := fun _ => .success "",
    hasLinkPermission := some true, cleanupDelR := .success "",
    linkR := .success "", linkDelR := .success "" }

/-- Environment in which the third essential API's enable call returns a
500, everything else succeeding. -/
def envApiFail : WorkflowEnv :=
  { baseEnv with
      enableR := fun a =>
        if a == "cloudbilling.googleapis.com" then
          .httpError 500 "Internal Server Error" "quota"
        else .success "" }

/-- Environment in which the page-load permission check found the link
permission absent. -/
def envNoPermission : WorkflowEnv :=
  { baseEnv with hasLinkPermission := some false }

/-- Environment in which the candidate project ID is already taken by a
project pending deletion. -/
def envIdTaken : WorkflowEnv :=
  { baseEnv with
      listR := .ok [⟨"abc-def", "abc-def", "123", "t0", "DELETE_REQUESTED"⟩] }

/-- Service-account environment in which creation succeeds and the
subsequent role grant throws. -/
def saEnvGrantFail : SAEnv :=
  { newServiceAccountId := "vertex-sa", newServiceAccountDisplayName := "Vertex SA",
    accessToken := "tok", projectId := "abc-def",
    createR := .ok "vertex-sa@abc-def.iam.gserviceaccount.com",
    grantR := .error "Error setting IAM policy: 403 Forbidden" }

/-- The success-completion observable of `handleCreateProject`: progress at
100, the `Project setup complete!` step text, and the creation dialog
closed. -/
def reportsSuccess (r : CreateProjectResult) : Prop :=
  r.creationProgress = 100
    ∧ r.currentCreationStep = "Project setup complete!"
    ∧ r.dialogOpen = false

/-- Conjunction of the five step-success conditions of the
project-creation workflow: availability, creation, API enablement, the
billing-permission state, and billing linkage. -/
def allStepsOk (env : WorkflowEnv) : Prop :=
  availOk env = true ∧ createOk env = true ∧ apisOk env = true
    ∧ env.hasLinkPermission = some true ∧ linkOk env = true

/-- C9: `cleanupFailedProject` is total and never propagates an exception:
every input returns normally; a `null` `projectId` performs no call at all
and leaves the error state untouched; a throwing `deleteProject` is folded
into the accumulated message ending in `Please delete it manually.`. -/
theorem cleanupFailedProject_never_throws :
    (∀ (delR : FetchResult) (pid : Option String) (st : String)
        (prev : Option String),
        ∃ v, cleanupFailedProject delR pid st prev = .ok v)
    ∧ (∀ (delR : FetchResult) (st : String) (prev : Option String),
        cleanupFailedProject delR none st prev = .ok (prev, false))
    ∧ (∀ (delR : FetchResult) (p st : String) (prev : Option String)
        (dmsg : String), deleteProject delR = .error dmsg →
        cleanupFailedProject delR (some p) st prev
          = .ok (some (appendToError prev
              ("Failed to delete project " ++ p ++ " after " ++ st ++ ": "
                ++ orDefault dmsg "unknown error"
                ++ ". Please delete it manually.")), true)) := by
  refine ⟨?_, ?_, ?_⟩
  · intro delR pid st prev
    cases pid with
    | none => exact ⟨(prev, false), rfl⟩
    | some p =>
      cases hd : deleteProject delR with
      | ok _ =>
          exact ⟨(some (appendToError prev
            ("Project " ++ p ++ " was deleted due to " ++ st ++ ".")), true),
            by simp [cleanupFailedProject, hd]⟩
      | error dmsg =>
          exact ⟨(some (appendToError prev
            ("Failed to delete project " ++ p ++ " after " ++ st ++ ": "
              ++ orDefault dmsg "unknown error"
              ++ ". Please delete it manually.")), true),
            by simp [cleanupFailedProject, hd]⟩
  · intro delR st prev
    rfl
  · intro delR p st prev dmsg hd
    simp [cleanupFailedProject, hd]

/-- Closed instance of `cleanupFailedProject_never_throws`: the delete call
throws a network error and the cleanup still returns normally with the
manual-intervention message. -/
theorem cleanupFailedProject_never_throws_witness :
    deleteProject (FetchResult.networkError "boom") = .error "boom"
    ∧ cleanupFailedProject (FetchResult.networkError "boom") (some "abc-def")
        "API enablement failure" none
        = .ok (some ("Failed to delete project abc-def after API enablement failure: boom. Please delete it manually."), true) :=
  ⟨rfl, by
    have h := cleanupFailedProject_never_throws.2.2
      (FetchResult.networkError "boom") "abc-def" "API enablement failure"
      none "boom" rfl
    simpa [appendToError, orDefault] using h⟩

/-- C10: `checkProjectIdAvailability` returns true exactly when no project
in the `listProjects` result carries the candidate ID; a matching project
makes the ID unavailable even when its `lifecycleState` is
`DELETE_REQUESTED`, in which case the UI filter drops it from the displayed
list. -/
theorem checkProjectIdAvailability_spec :
    (∀ (ps : List GCPProject) (pid : String),
        checkProjectIdAvailability (.ok ps) pid = .ok true
          ↔ ∀ p ∈ ps, p.projectId ≠ pid)
    ∧ (∀ (ps : List GCPProject) (pid : String) (p : GCPProject),
        p ∈ ps → p.projectId = pid →
          checkProjectIdAvailability (.ok ps) pid = .ok false
          ∧ (p.lifecycleState = "DELETE_REQUESTED" → p ∉ displayedProjects ps)) := by
  constructor
  · intro ps pid
    simp [checkProjectIdAvailability, listProjects, List.any_eq_true]
  · intro ps pid p hmem hid
    constructor
    · simp only [checkProjectIdAvailability, listProjects, Except.ok.injEq]
      have : ps.any (fun q => q.projectId == pid) = true :=
        List.any_eq_true.mpr ⟨p, hmem, by simp [hid]⟩
      simp [this]
    · intro hls
      simp [displayedProjects, List.mem_filter, hls]

/-- Closed instance of `checkProjectIdAvailability_spec`: a project pending
deletion holds the ID `abc-def`, so a fresh `abc-def` is reported
unavailable even though the project is absent from the displayed list. -/
theorem checkProjectIdAvailability_spec_witness :
    checkProjectIdAvailability
        (.ok [⟨"abc-def", "abc-def", "123", "t0", "DELETE_REQUESTED"⟩])
        "abc-def" = .ok false
    ∧ (⟨"abc-def", "abc-def", "123", "t0", "DELETE_REQUESTED"⟩ : GCPProject)
        ∉ displayedProjects [⟨"abc-def", "abc-def", "123", "t0", "DELETE_REQUESTED"⟩] := by
  have h := checkProjectIdAvailability_spec.2
    [⟨"abc-def", "abc-def", "123", "t0", "DELETE_REQUESTED"⟩] "abc-def"
    ⟨"abc-def", "abc-def", "123", "t0", "DELETE_REQUESTED"⟩
    (by simp) rfl
  exact ⟨h.1, h.2 rfl⟩

/-- C2: evaluation of `linkBillingAccountDirect` at a failing linkage whose
compensating delete succeeds. The deliberate `throw` of the
"has been deleted" composite sits inside the inner `try`, so
`catch (deleteError)` catches it and rethrows the deletion-failure
composite around it: although `deleteProject` returned success, the error
surfaced to the caller says
`Additionally, failed to delete the project after billing linkage failure`,
the same shape as the genuine deletion-failure case — the two cleanup
outcomes are conflated. -/
theorem linkBilling_deletionSuccess_conflated :
    deleteProject (FetchResult.success "") = .ok ()
    ∧ linkBillingAccountDirect "abc-def" "billingAccounts/ABC123"
        (.httpError 403 "Forbidden" "") (.success "")
      = .error ("Error linking billing account: Permission denied (403). You need Billing Account Administrator or Billing Account User role on billingAccounts/ABC123."
          ++ ". Additionally, failed to delete the project after billing linkage failure: "
          ++ ("Error linking billing account: Permission denied (403). You need Billing Account Administrator or Billing Account User role on billingAccounts/ABC123."
              ++ ". The project abc-def has been deleted due to billing linkage failure.")) :=
  ⟨rfl, rfl⟩

/-- C4 counterexample: concrete execution of `handleCreateServiceAccount`
in which `createServiceAccount` succeeds and the role grant throws — the
grant was invoked, yet no cleanup of the created service account is
attempted (the handler contains no deletion call), refuting the claim that
the failure triggers cleanup of the created resource. -/
theorem handleCreateServiceAccount_no_cleanup_counterexample :
    (handleCreateServiceAccount saEnvGrantFail).grantCalled = true
    ∧ ¬ ((handleCreateServiceAccount saEnvGrantFail).cleanupAttempted = true) := by
  refine ⟨rfl, ?_⟩
  decide

/-- C4 amended: when `createServiceAccount` succeeds and
`grantVertexAIUserRoleToServiceAccount` fails, the handler only records
`Failed to create service account: <msg || 'Unknown error'>` and stops; no
cleanup of the created service account is attempted and the account is not
added to the page's list — it is left behind. -/
theorem handleCreateServiceAccount_grantFailure_no_cleanup (env : SAEnv)
    (hid : validateServiceAccountId env.newServiceAccountId = none)
    (hdn : env.newServiceAccountDisplayName ≠ "")
    (hat : env.accessToken ≠ "") (hpid : env.projectId ≠ "")
    (email : String) (hcr : env.createR = .ok email)
    (m : String) (hg : env.grantR = .error m) :
    (handleCreateServiceAccount env).cleanupAttempted = false
    ∧ (handleCreateServiceAccount env).accountAdded = false
    ∧ (handleCreateServiceAccount env).createServiceAccountError
        = some ("Failed to create service account: " ++ orDefault m "Unknown error") := by
  simp [handleCreateServiceAccount, hid, hdn, hat, hpid, hcr, hg]

/-- Closed instance of `handleCreateServiceAccount_grantFailure_no_cleanup`
at `saEnvGrantFail`. -/
theorem handleCreateServiceAccount_grantFailure_no_cleanup_witness :
    (validateServiceAccountId "vertex-sa" = none
      ∧ saEnvGrantFail.createR = .ok "vertex-sa@abc-def.iam.gserviceaccount.com"
      ∧ saEnvGrantFail.grantR = .error "Error setting IAM policy: 403 Forbidden")
    ∧ (handleCreateServiceAccount saEnvGrantFail).cleanupAttempted = false
    ∧ (handleCreateServiceAccount saEnvGrantFail).accountAdded = false
    ∧ (handleCreateServiceAccount saEnvGrantFail).createServiceAccountError
        = some ("Failed to create service account: "
            ++ orDefault "Error setting IAM policy: 403 Forbidden" "Unknown error") :=
  ⟨⟨rfl, rfl, rfl⟩,
    handleCreateServiceAccount_grantFailure_no_cleanup saEnvGrantFail rfl
      (by decide) (by decide) (by decide)
      "vertex-sa@abc-def.iam.gserviceaccount.com" rfl
      "Error setting IAM policy: 403 Forbidden" rfl⟩

/-- Helper: when the first role-matching binding already lists the member,
the role has a match in the list and updating it is the identity. -/
theorem updateFirstMatching_of_found (role key : String) (bs : List Binding)
    (b : Binding) (hfind : bs.find? (fun c => c.role == role) = some b)
    (hmem : (b.members.getD []).contains key = true) :
    bs.any (fun c => c.role == role) = true
    ∧ updateFirstMatching role (addMemberToBinding key) bs = bs := by
  induction bs with
  | nil => simp [List.find?] at hfind
  | cons c rest ih =>
    cases hc : (c.role == role) with
    | true =>
      have hb : c = b := by
        rw [List.find?_cons, hc] at hfind
        exact Option.some.inj hfind
      subst hb
      refine ⟨by simp [hc], ?_⟩
      have hmem' : key ∈ c.members.getD [] := by
        simpa using hmem
      simp [updateFirstMatching, hc, addMemberToBinding, hmem']
    | false =>
      rw [List.find?_cons, hc] at hfind
      have h := ih hfind
      refine ⟨by simp [hc, h.1], ?_⟩
      simp [updateFirstMatching, hc, h.2]

/-- Helper: `grantPolicyUpdate` leaves the policy unchanged when the first
binding found for the role already lists the member. -/
theorem grantPolicyUpdate_of_member (role key : String) (p : Policy)
    (bs : List Binding) (b : Binding)
    (hbs : p.bindings = some bs)
    (hfind : bs.find? (fun c => c.role == role) = some b)
    (hmem : (b.members.getD []).contains key = true) :
    grantPolicyUpdate role key p = p := by
  have h := updateFirstMatching_of_found role key bs b hfind hmem
  cases p with
  | mk obs =>
    simp only at hbs
    subst hbs
    simp [grantPolicyUpdate, h.1, h.2]

/-- C8: granting a role to a member already holding it is idempotent on the
policy sent back: when the binding found for the target role already lists
the member key (`serviceAccount:<email>` for the Vertex AI grant,
`user:<email>` for the service-account grant), the policy passed to
`setIamPolicy` equals the fetched one — the member is never duplicated
within a binding. -/
theorem grantRole_idempotent :
    (∀ (p : Policy) (bs : List Binding) (b : Binding) (email : String),
        p.bindings = some bs →
        bs.find? (fun c => c.role == "roles/aiplatform.user") = some b →
        (b.members.getD []).contains ("serviceAccount:" ++ email) = true →
        grantVertexAIUserRolePolicy email p = p)
    ∧ (∀ (p : Policy) (bs : List Binding) (b : Binding) (role userEmail : String),
        p.bindings = some bs →
        bs.find? (fun c => c.role == role) = some b →
        (b.members.getD []).contains ("user:" ++ userEmail) = true →
        grantUserRolePolicy role userEmail p = p) := by
  constructor
  · intro p bs b email hbs hfind hmem
    exact grantPolicyUpdate_of_member _ _ p bs b hbs hfind hmem
  · intro p bs b role userEmail hbs hfind hmem
    exact grantPolicyUpdate_of_member _ _ p bs b hbs hfind hmem

/-- Closed instance of `grantRole_idempotent`: a policy whose
`roles/aiplatform.user` binding already lists the service account is sent
back unchanged. -/
theorem grantRole_idempotent_witness :
    ((Policy.mk (some [⟨"roles/aiplatform.user", some ["serviceAccount:sa@abc-def.iam.gserviceaccount.com"]⟩])).bindings
        = some [⟨"roles/aiplatform.user", some ["serviceAccount:sa@abc-def.iam.gserviceaccount.com"]⟩]
      ∧ ([⟨"roles/aiplatform.user", some ["serviceAccount:sa@abc-def.iam.gserviceaccount.com"]⟩] : List Binding).find?
          (fun c => c.role == "roles/aiplatform.user")
        = some ⟨"roles/aiplatform.user", some ["serviceAccount:sa@abc-def.iam.gserviceaccount.com"]⟩)
    ∧ grantVertexAIUserRolePolicy "sa@abc-def.iam.gserviceaccount.com"
        (Policy.mk (some [⟨"roles/aiplatform.user", some ["serviceAccount:sa@abc-def.iam.gserviceaccount.com"]⟩]))
      = Policy.mk (some [⟨"roles/aiplatform.user", some ["serviceAccount:sa@abc-def.iam.gserviceaccount.com"]⟩]) :=
  ⟨⟨rfl, by decide⟩,
    grantRole_idempotent.1
      (Policy.mk (some [⟨"roles/aiplatform.user", some ["serviceAccount:sa@abc-def.iam.gserviceaccount.com"]⟩]))
      [⟨"roles/aiplatform.user", some ["serviceAccount:sa@abc-def.iam.gserviceaccount.com"]⟩]
      ⟨"roles/aiplatform.user", some ["serviceAccount:sa@abc-def.iam.gserviceaccount.com"]⟩
      "sa@abc-def.iam.gserviceaccount.com" rfl (by decide) (by decide)⟩

/-- C7: the post-creation polling effect has no timeout and no maximum
attempt count: the interval fires every 3000 ms, it is still running after
`n` ticks exactly when every tick so far decided to keep polling (so it
stops only when the project is found or a call throws), a tick finds the
project exactly when the project appears in the billing-filtered list, and
when every tick keeps succeeding without finding the project the loop is
active after any number of ticks — it polls forever. -/
theorem pollingLoop_unbounded :
    pollIntervalMs = 3000
    ∧ (∀ (pid : String) (o : Nat → PollOutcome) (n : Nat),
        pollingActiveAfter pid o n = true
          ↔ ∀ k < n, pollTick pid (o k) = .keepPolling)
    ∧ (∀ (pid : String) (infos : List ProjectBillingInfo)
        (allProjects : List GCPProject),
        pollTick pid (.success infos allProjects) = .found
          ↔ ((allProjects.filter
                (fun p => (extractProjectIds infos).contains p.projectId)).any
              (fun p => p.projectId == pid)) = true)
    ∧ (∀ (pid : String) (o : Nat → PollOutcome),
        (∀ k, pollTick pid (o k) = .keepPolling) →
        ∀ n, pollingActiveAfter pid o n = true) := by
  refine ⟨rfl, ?_, ?_, ?_⟩
  · intro pid o n
    induction n with
    | zero => simp [pollingActiveAfter]
    | succ n ih =>
      rw [pollingActiveAfter]
      constructor
      · intro h k hk
        have h1 := (Bool.and_eq_true _ _).mp h
        rcases Nat.lt_succ_iff_lt_or_eq.mp hk with hlt | heq
        · exact (ih.mp h1.1) k hlt
        · subst heq
          exact beq_iff_eq.mp h1.2
      · intro h
        refine (Bool.and_eq_true _ _).mpr ⟨ih.mpr (fun k hk => h k (Nat.lt_succ_of_lt hk)), ?_⟩
        exact beq_iff_eq.mpr (h n (Nat.lt_succ_self n))
  · intro pid infos allProjects
    unfold pollTick
    cases hb : (allProjects.filter
        (fun p => (extractProjectIds infos).contains p.projectId)).any
        (fun p => p.projectId == pid) with
    | true =>
      simp [hb]
      simpa using hb
    | false =>
      simp [hb]
      simpa using hb
  · intro pid o h n
    induction n with
    | zero => rfl
    | succ n ih =>
      rw [pollingActiveAfter, ih, h n]
      rfl

/-- Closed instance of `pollingLoop_unbounded`: against an oracle whose
calls always succeed with lists never containing the project, the loop is
still active after four ticks. -/
theorem pollingLoop_unbounded_witness :
    (∀ k : Nat, pollTick "abc-def" ((fun (_ : Nat) => PollOutcome.success [] []) k) = .keepPolling)
    ∧ pollingActiveAfter "abc-def" (fun (_ : Nat) => PollOutcome.success [] []) 4 = true :=
  ⟨fun (_ : Nat) => rfl,
    pollingLoop_unbounded.2.2.2 "abc-def" (fun (_ : Nat) => PollOutcome.success [] [])
      (fun (_ : Nat) => rfl) 4⟩

/-- C1: `handleCreateProject` reports plain success — progress 100,
`Project setup complete!`, dialog closed — exactly when the availability
check, project creation, every API enablement, the billing-permission
check, and billing linkage all succeeded; and every execution in which some
of those steps fails records a non-null `createProjectError`. -/
theorem handleCreateProject_success_iff (env : WorkflowEnv)
    (hval : validateProjectId env.newProjectId = none) :
    (reportsSuccess (handleCreateProject env) ↔ allStepsOk env)
    ∧ (¬ allStepsOk env → (handleCreateProject env).createProjectError ≠ none) := by
  cases hc : checkProjectIdAvailability env.listR env.newProjectId with
  | error m =>
      simp [handleCreateProject, reportsSuccess, allStepsOk, availOk,
        createOk, apisOk, linkOk, hval, hc]
  | ok b =>
    cases b with
    | false =>
        simp [handleCreateProject, reportsSuccess, allStepsOk, availOk,
          createOk, apisOk, linkOk, hval, hc]
    | true =>
      cases hcr : env.createR with
      | error m =>
          simp [handleCreateProject, reportsSuccess, allStepsOk, availOk,
            createOk, apisOk, linkOk, hval, hc, hcr]
      | ok u =>
        cases henable : enableApisForProject env.enableR ESSENTIAL_APIS with
        | mk er invoked =>
          cases er with
          | error m =>
            cases hcd : deleteProject env.cleanupDelR with
            | ok v =>
                simp [handleCreateProject, reportsSuccess, allStepsOk, availOk,
                  createOk, apisOk, linkOk, cleanupFailedProject, hval, hc, hcr,
                  henable, hcd]
            | error dmsg =>
                simp [handleCreateProject, reportsSuccess, allStepsOk, availOk,
                  createOk, apisOk, linkOk, cleanupFailedProject, hval, hc, hcr,
                  henable, hcd]
          | ok w =>
            cases hp : env.hasLinkPermission with
            | none =>
              cases hcd : deleteProject env.cleanupDelR with
              | ok v =>
                  simp [handleCreateProject, reportsSuccess, allStepsOk, availOk,
                    createOk, apisOk, linkOk, cleanupFailedProject, hval, hc, hcr,
                    henable, hp, hcd]
              | error dmsg =>
                  simp [handleCreateProject, reportsSuccess, allStepsOk, availOk,
                    createOk, apisOk, linkOk, cleanupFailedProject, hval, hc, hcr,
                    henable, hp, hcd]
            | some perm =>
              cases perm with
              | false =>
                cases hcd : deleteProject env.cleanupDelR with
                | ok v =>
                    simp [handleCreateProject, reportsSuccess, allStepsOk, availOk,
                      createOk, apisOk, linkOk, cleanupFailedProject, hval, hc, hcr,
                      henable, hp, hcd]
                | error dmsg =>
                    simp [handleCreateProject, reportsSuccess, allStepsOk, availOk,
                      createOk, apisOk, linkOk, cleanupFailedProject, hval, hc, hcr,
                      henable, hp, hcd]
              | true =>
                cases hl : linkBillingAccount env.newProjectId
                    env.billingAccountName env.linkR env.linkDelR with
                | ok v =>
                    simp [handleCreateProject, reportsSuccess, allStepsOk, availOk,
                      createOk, apisOk, linkOk, hval, hc, hcr, henable, hp, hl]
                | error m =>
                    simp [handleCreateProject, reportsSuccess, allStepsOk, availOk,
                      createOk, apisOk, linkOk, hval, hc, hcr, henable, hp, hl]

/-- Closed instance of `handleCreateProject_success_iff` at the
all-successful environment. -/
theorem handleCreateProject_success_iff_witness :
    validateProjectId baseEnv.newProjectId = none
    ∧ ((reportsSuccess (handleCreateProject baseEnv) ↔ allStepsOk baseEnv)
      ∧ (¬ allStepsOk baseEnv →
          (handleCreateProject baseEnv).createProjectError ≠ none)) :=
  ⟨rfl, handleCreateProject_success_iff baseEnv rfl⟩

/-- Helper for C3: the enable loop's invocation trace is the successful
head of the list followed by the first failing API (if any), and the loop
succeeds exactly when every listed API's call succeeds. -/
theorem enableApis_trace (f : String → FetchResult) (apis : List String) :
    (enableApisForProject f apis).2
      = apis.takeWhile (enableOk f) ++ (apis.dropWhile (enableOk f)).take 1
    ∧ ((enableApisForProject f apis).1 = .ok ()
        ↔ apis.all (enableOk f) = true) := by
  induction apis with
  | nil => simp [enableApisForProject]
  | cons api rest ih =>
    rcases hrec : enableApisForProject f rest with ⟨r, invoked⟩
    rw [hrec] at ih
    cases hf : f api with
    | success body =>
      have he : enableOk f api = true := by simp [enableOk, hf]
      refine ⟨?_, ?_⟩
      · simp [enableApisForProject, hf, hrec, he, ih.1]
      · simp [enableApisForProject, hf, hrec, he, ih.2]
    | httpError status statusText body =>
      have he : enableOk f api = false := by simp [enableOk, hf]
      refine ⟨?_, ?_⟩
      · simp [enableApisForProject, hf, he]
      · simp [enableApisForProject, hf, he]
    | networkError m =>
      have he : enableOk f api = false := by simp [enableOk, hf]
      refine ⟨?_, ?_⟩
      · simp [enableApisForProject, hf, he]
      · simp [enableApisForProject, hf, he]

/-- C3: `enableApisForProject` issues the enable calls in list order and
stops at the first failure — the invoked trace is the successful head
followed by the first failing API, so identifiers after the failing one are
never invoked — and in `handleCreateProject` any enablement failure (after
the project was created) triggers cleanup of the created project via
`cleanupFailedProject`, with the linkage step never reached. -/
theorem enableApis_sequential_stop_and_cleanup :
    (∀ (f : String → FetchResult) (apis : List String),
        (enableApisForProject f apis).2
          = apis.takeWhile (enableOk f) ++ (apis.dropWhile (enableOk f)).take 1
        ∧ ((enableApisForProject f apis).1 = .ok ()
            ↔ apis.all (enableOk f) = true))
    ∧ (∀ env : WorkflowEnv, validateProjectId env.newProjectId = none →
        availOk env = true → createOk env = true → apisOk env = false →
        (handleCreateProject env).deleteCalled = true
        ∧ (handleCreateProject env).linkCalled = false) := by
  constructor
  · exact enableApis_trace
  · intro env hval ha hcr hap
    cases hc : checkProjectIdAvailability env.listR env.newProjectId with
    | error m => simp [availOk, hc] at ha
    | ok b =>
      cases b with
      | false => simp [availOk, hc] at ha
      | true =>
        cases hcrr : env.createR with
        | error m => simp [createOk, hcrr] at hcr
        | ok u =>
          cases henable : enableApisForProject env.enableR ESSENTIAL_APIS with
          | mk er invoked =>
            cases er with
            | ok w => simp [apisOk, henable] at hap
            | error m =>
              cases hcd : deleteProject env.cleanupDelR with
              | ok v =>
                  simp [handleCreateProject, cleanupFailedProject, hval, hc,
                    hcrr, henable, hcd]
              | error dmsg =>
                  simp [handleCreateProject, cleanupFailedProject, hval, hc,
                    hcrr, henable, hcd]

/-- Closed instance of `enableApis_sequential_stop_and_cleanup`: the third
essential API fails and the created project is deleted. -/
theorem enableApis_sequential_stop_and_cleanup_witness :
    (validateProjectId envApiFail.newProjectId = none
      ∧ availOk envApiFail = true ∧ createOk envApiFail = true
      ∧ apisOk envApiFail = false)
    ∧ (handleCreateProject envApiFail).deleteCalled = true
    ∧ (handleCreateProject envApiFail).linkCalled = false :=
  ⟨⟨rfl, rfl, rfl, rfl⟩,
    enableApis_sequential_stop_and_cleanup.2 envApiFail rfl rfl rfl rfl⟩

/-- C5: a permission list lacking `billing.resourceAssociations.create`
yields `hasLinkPermission = false`; and after a created project with all
APIs enabled, a `hasLinkPermission` state other than `true` short-circuits
to cleanup — `linkBillingAccount` is never invoked, the project deletion is
attempted, and an error is recorded. -/
theorem handleCreateProject_permission_shortCircuit :
    (∀ perms : List String,
        perms.contains "billing.resourceAssociations.create" = false →
        hasLinkPermissionFrom (.ok perms) = false)
    ∧ (∀ env : WorkflowEnv, validateProjectId env.newProjectId = none →
        availOk env = true → createOk env = true → apisOk env = true →
        env.hasLinkPermission ≠ some true →
        (handleCreateProject env).linkCalled = false
        ∧ (handleCreateProject env).deleteCalled = true
        ∧ (handleCreateProject env).createProjectError ≠ none) := by
  constructor
  · intro perms h
    simp only [hasLinkPermissionFrom, testBillingAccountPermissions]
    simpa using h
  · intro env hval ha hcr hap hperm
    cases hc : checkProjectIdAvailability env.listR env.newProjectId with
    | error m => simp [availOk, hc] at ha
    | ok b =>
      cases b with
      | false => simp [availOk, hc] at ha
      | true =>
        cases hcrr : env.createR with
        | error m => simp [createOk, hcrr] at hcr
        | ok u =>
          cases henable : enableApisForProject env.enableR ESSENTIAL_APIS with
          | mk er invoked =>
            cases er with
            | error m => simp [apisOk, henable] at hap
            | ok w =>
              cases hp : env.hasLinkPermission with
              | none =>
                cases hcd : deleteProject env.cleanupDelR with
                | ok v =>
                    simp [handleCreateProject, cleanupFailedProject, hval, hc,
                      hcrr, henable, hp, hcd]
                | error dmsg =>
                    simp [handleCreateProject, cleanupFailedProject, hval, hc,
                      hcrr, henable, hp, hcd]
              | some perm =>
                cases perm with
                | true => exact absurd hp hperm
                | false =>
                  cases hcd : deleteProject env.cleanupDelR with
                  | ok v =>
                      simp [handleCreateProject, cleanupFailedProject, hval, hc,
                        hcrr, henable, hp, hcd]
                  | error dmsg =>
                      simp [handleCreateProject, cleanupFailedProject, hval, hc,
                        hcrr, henable, hp, hcd]

/-- Closed instance of `handleCreateProject_permission_shortCircuit`: the
page-load check reported the permission absent and the created project is
cleaned up without ever calling the linkage. -/
theorem handleCreateProject_permission_shortCircuit_witness :
    (validateProjectId envNoPermission.newProjectId = none
      ∧ availOk envNoPermission = true ∧ createOk envNoPermission = true
      ∧ apisOk envNoPermission = true
      ∧ envNoPermission.hasLinkPermission ≠ some true)
    ∧ (handleCreateProject envNoPermission).linkCalled = false
    ∧ (handleCreateProject envNoPermission).deleteCalled = true
    ∧ (handleCreateProject envNoPermission).createProjectError ≠ none :=
  ⟨⟨rfl, rfl, rfl, rfl, by decide⟩,
    handleCreateProject_permission_shortCircuit.2 envNoPermission rfl rfl rfl
      rfl (by decide)⟩

/-- C6: when the availability check fails — the ID is taken or the check
itself throws — the workflow terminates with an error before
`createProject` is called: no create, no delete, no linkage, no enable call
is issued, no polling starts, and a non-null error is recorded. -/
theorem handleCreateProject_availability_terminal (env : WorkflowEnv)
    (hval : validateProjectId env.newProjectId = none)
    (hfail : availOk env = false) :
    (handleCreateProject env).createCalled = false
    ∧ (handleCreateProject env).deleteCalled = false
    ∧ (handleCreateProject env).linkCalled = false
    ∧ (handleCreateProject env).apisInvoked = []
    ∧ (handleCreateProject env).pollingStarted = false
    ∧ (handleCreateProject env).createProjectError ≠ none := by
  cases hc : checkProjectIdAvailability env.listR env.newProjectId with
  | error m => simp [handleCreateProject, hval, hc]
  | ok b =>
    cases b with
    | false => simp [handleCreateProject, hval, hc]
    | true => simp [availOk, hc] at hfail

/-- Closed instance of `handleCreateProject_availability_terminal`: the ID
is already held by a project pending deletion. -/
theorem handleCreateProject_availability_terminal_witness :
    (validateProjectId envIdTaken.newProjectId = none
      ∧ availOk envIdTaken = false)
    ∧ ((handleCreateProject envIdTaken).createCalled = false
      ∧ (handleCreateProject envIdTaken).deleteCalled = false
      ∧ (handleCreateProject envIdTaken).linkCalled = false
      ∧ (handleCreateProject envIdTaken).apisInvoked = []
      ∧ (handleCreateProject envIdTaken).pollingStarted = false
      ∧ (handleCreateProject envIdTaken).createProjectError ≠ none) :=
  ⟨⟨rfl, rfl⟩, handleCreateProject_availability_terminal envIdTaken rfl rfl⟩
